import Mathlib

/-!
Verification of the quasipaas/quasipaa RPC transport
(`turn_node/src/controls/transport.rs`) and the SDP attribute-line handler
(`sdp/src/attributes/mod.rs`).

The Rust source is shallowly embedded: bytes are `Nat` values below 256,
byte buffers are `List Nat`, the shared `HashMap`s of the transport are
functions `Nat → Option Nat` (key to token), and the observable actions of
the dispatch loop (channel sends, one-shot resolutions) are an explicit
`Effect` list.
-/

namespace Quasipaa

/-- Wire flag byte of a frame (`enum Flag` in transport.rs):
`Request = 0`, `Reply = 1`, `Error = 2`. -/
inductive Flag : Type
  | Request
  | Reply
  | Error
deriving DecidableEq, Repr

/-- The `flag as u8` cast used by `Transport::send`. -/
def Flag.toByte : Flag → Nat
  | Flag.Request => 0
  | Flag.Reply => 1
  | Flag.Error => 2

/-- `Flag::try_from` derived by `TryFromPrimitive`: bytes 0, 1, 2 map to the
three variants, every other byte is a conversion error. -/
def Flag.tryFrom (b : Nat) : Option Flag :=
  if b = 0 then some Flag.Request
  else if b = 1 then some Flag.Reply
  else if b = 2 then some Flag.Error
  else none

/-- Big-endian recomposition of four bytes into a `u32`, as done by
`u32::from_be_bytes` in `Transport::poll` and by `get_u32`. -/
def u32be (a b c d : Nat) : Nat := ((a * 256 + b) * 256 + c) * 256 + d

/-- Big-endian byte decomposition of a `u32`, as written by `put_u32` in
`Transport::send`. -/
def u32beBytes (n : Nat) : List Nat :=
  [n / 16777216 % 256, n / 65536 % 256, n / 256 % 256, n % 256]

/-- The bytes `Transport::send` writes for one frame: 4-byte big-endian body
length (`buf.len() as u32`), kind byte, flag byte, 4-byte big-endian id,
then the body. -/
def encodeFrame (kind : Nat) (flag : Flag) (id : Nat) (body : List Nat) : List Nat :=
  u32beBytes (body.length % 4294967296) ++
    (kind % 256 :: Flag.toByte flag :: u32beBytes (id % 4294967296)) ++ body

/-- Result of one iteration of the frame-extraction loop in `Transport::poll`. -/
inductive DecodeResult : Type
  | insufficient
  | flagErr (rest : List Nat)
  | ok (kind : Nat) (flag : Flag) (id : Nat) (body : List Nat) (rest : List Nat)
deriving DecidableEq, Repr

/-- One iteration of the decode loop in `Transport::poll` on the buffered
bytes.  The source breaks out of the loop when `buf.inner.len() <= 10`
(captured here by the wildcard pattern: fewer than 11 bytes), reads the
big-endian body length from the first four bytes, breaks when
`size + 10 > buf.inner.len()` (here: `size > t.length + 1`), then consumes
4 length bytes, the kind byte, the flag byte (a byte that is no valid
`Flag` makes `poll` return with the buffer advanced by those 6 bytes), the
4 id bytes, and `size` body bytes. -/
def decodeOne : List Nat → DecodeResult
  | b0 :: b1 :: b2 :: b3 :: k :: fb :: i0 :: i1 :: i2 :: i3 :: t0 :: t =>
    if u32be b0 b1 b2 b3 > t.length + 1 then DecodeResult.insufficient
    else
      match Flag.tryFrom fb with
      | none => DecodeResult.flagErr (i0 :: i1 :: i2 :: i3 :: t0 :: t)
      | some flag =>
        DecodeResult.ok k flag (u32be i0 i1 i2 i3)
          ((t0 :: t).take (u32be b0 b1 b2 b3))
          ((t0 :: t).drop (u32be b0 b1 b2 b3))
  | _ => DecodeResult.insufficient

/-- The body length declared by the first four buffered bytes
(`u32::from_be_bytes` over `buf.inner[0..4]`). -/
def declaredLen (buf : List Nat) : Nat :=
  u32be (buf.getD 0 0) (buf.getD 1 0) (buf.getD 2 0) (buf.getD 3 0)

/-- `HashMap::insert`: the new binding replaces any previous binding of the
same key and the insertion itself never fails. -/
def mapInsert (m : Nat → Option Nat) (key v : Nat) : Nat → Option Nat :=
  fun k => if k = key then some v else m k

/-- `HashMap::remove`: the binding of the key, if any, disappears. -/
def mapRemove (m : Nat → Option Nat) (key : Nat) : Nat → Option Nat :=
  fun k => if k = key then none else m k

/-- Result type delivered through a completion slot:
`Result<Bytes, anyhow::Error>` with the error carried as its message. -/
inductive CallResult : Type
  | ok (body : List Nat)
  | err (msg : String)
deriving DecidableEq, Repr

/-- The shared tables of `Transport`: `call_stack` maps a call id to the
token of its one-shot completion slot, `listener` maps a kind byte to the
token of the bound handler channel. -/
structure TState where
  callStack : Nat → Option Nat
  listener : Nat → Option Nat

/-- The tables of a freshly constructed `Transport` (`Transport::new`):
both `HashMap`s are empty. -/
def initState : TState :=
  { callStack := fun _ => none, listener := fun _ => none }

/-- Observable action performed while routing a frame: a `(id, body)` send
on a handler channel, or the resolution of a completion slot. -/
inductive Effect : Type
  | chanSend (chan : Nat) (id : Nat) (body : List Nat)
  | resolve (slot : Nat) (result : CallResult)
deriving DecidableEq, Repr

/-- Lone-first-byte lower bound for the second byte of a multi-byte UTF-8
sequence (0xE0 forbids overlongs, 0xF0 likewise). -/
def utf8B1Lo (b0 : Nat) : Nat :=
  if b0 = 224 then 160 else if b0 = 240 then 144 else 128

/-- Exclusive upper bound for the second byte of a multi-byte UTF-8
sequence (0xED excludes surrogates, 0xF4 caps at U+10FFFF). -/
def utf8B1Hi (b0 : Nat) : Nat :=
  if b0 = 237 then 160 else if b0 = 244 then 144 else 192

/-- Strict UTF-8 decoding of a byte sequence into characters, with the
exact acceptance conditions of `std::str::from_utf8`: no continuation
bytes on their own, no overlong encodings, no surrogates, nothing above
U+10FFFF. `none` models a `Utf8Error`. -/
def utf8DecodeChars : List Nat → Option (List Char)
  | [] => some []
  | b0 :: rest =>
    if b0 < 128 then
      match utf8DecodeChars rest with
      | none => none
      | some cs => some (Char.ofNat b0 :: cs)
    else if b0 < 194 then none
    else if b0 < 224 then
      match rest with
      | b1 :: rest2 =>
        if 128 ≤ b1 ∧ b1 < 192 then
          match utf8DecodeChars rest2 with
          | none => none
          | some cs => some (Char.ofNat ((b0 - 192) * 64 + (b1 - 128)) :: cs)
        else none
      | [] => none
    else if b0 < 240 then
      match rest with
      | b1 :: b2 :: rest2 =>
        if utf8B1Lo b0 ≤ b1 ∧ b1 < utf8B1Hi b0 ∧ 128 ≤ b2 ∧ b2 < 192 then
          match utf8DecodeChars rest2 with
          | none => none
          | some cs =>
            some (Char.ofNat ((b0 - 224) * 4096 + (b1 - 128) * 64 + (b2 - 128)) :: cs)
        else none
      | _ => none
    else if b0 < 245 then
      match rest with
      | b1 :: b2 :: b3 :: rest2 =>
        if utf8B1Lo b0 ≤ b1 ∧ b1 < utf8B1Hi b0 ∧ 128 ≤ b2 ∧ b2 < 192 ∧
            128 ≤ b3 ∧ b3 < 192 then
          match utf8DecodeChars rest2 with
          | none => none
          | some cs =>
            some (Char.ofNat
              ((b0 - 240) * 262144 + (b1 - 128) * 4096 + (b2 - 128) * 64 + (b3 - 128)) :: cs)
        else none
      | _ => none
    else none

/-- `str::from_utf8(&body).ok()` as used by `Transport::process_error`. -/
def utf8Decode (bs : List Nat) : Option String :=
  match utf8DecodeChars bs with
  | none => none
  | some cs => some (String.mk cs)

/-- Standard UTF-8 encoding of one character. -/
def utf8EncodeChar (c : Char) : List Nat :=
  let n := c.toNat
  if n < 128 then [n]
  else if n < 2048 then [192 + n / 64, 128 + n % 64]
  else if n < 65536 then [224 + n / 4096, 128 + n / 64 % 64, 128 + n % 64]
  else [240 + n / 262144, 128 + n / 4096 % 64, 128 + n / 64 % 64, 128 + n % 64]

/-- `str::as_bytes`: the UTF-8 bytes of a string. -/
def utf8Encode (s : String) : List Nat :=
  s.data.foldr (fun c acc => utf8EncodeChar c ++ acc) []

/-- `Transport::process_request`: look up the handler channel bound to the
kind; absence short-circuits (`?`) leaving everything untouched, presence
forwards `(id, body)` on the channel. -/
def process_request (s : TState) (kind id : Nat) (body : List Nat) : TState × List Effect :=
  match s.listener kind with
  | none => (s, [])
  | some ch => (s, [Effect.chanSend ch id body])

/-- `Transport::process_reply`: `call_stack.remove(&id)` — absence
short-circuits leaving the table untouched, presence removes the slot and
completes it with `Ok(body)`. -/
def process_reply (s : TState) (id : Nat) (body : List Nat) : TState × List Effect :=
  match s.callStack id with
  | none => (s, [])
  | some slot =>
    ({ s with callStack := mapRemove s.callStack id },
     [Effect.resolve slot (CallResult.ok body)])

/-- `Transport::process_error`: the body must first be valid UTF-8
(`str_from_utf8(..).ok()?` — failure short-circuits before the table is
touched); then `call_stack.remove(&id)` as for a reply, completing the
slot with the error message. -/
def process_error (s : TState) (id : Nat) (body : List Nat) : TState × List Effect :=
  match utf8Decode body with
  | none => (s, [])
  | some msg =>
    match s.callStack id with
    | none => (s, [])
    | some slot =>
      ({ s with callStack := mapRemove s.callStack id },
       [Effect.resolve slot (CallResult.err msg)])

/-- The `match flag` dispatch at the end of each `Transport::poll`
iteration. -/
def routeFrame (s : TState) (kind : Nat) (flag : Flag) (id : Nat) (body : List Nat) :
    TState × List Effect :=
  match flag with
  | Flag.Request => process_request s kind id body
  | Flag.Reply => process_reply s id body
  | Flag.Error => process_error s id body

/-- The inner `loop` of `Transport::poll` after the socket read: decode as
many complete frames as the buffer holds, routing each one and discarding
the routing result (`let _ = match flag ...`); stop with the remaining
buffer on insufficient data, or (through `?` on `Flag::try_from`) on an
unknown flag byte.  Returns the final tables, the remaining buffered
bytes, and the routing effects in order. -/
def pollLoop (s : TState) (buf : List Nat) : TState × List Nat × List Effect :=
  match hdec : decodeOne buf with
  | DecodeResult.insufficient => (s, buf, [])
  | DecodeResult.flagErr r => (s, r, [])
  | DecodeResult.ok k f i b r =>
    let step := routeFrame s k f i b
    let next := pollLoop step.1 r
    (next.1, next.2.1, step.2 ++ next.2.2)
termination_by buf.length
decreasing_by
  rcases buf with _ | ⟨b0, _ | ⟨b1, _ | ⟨b2, _ | ⟨b3, _ | ⟨k0, _ | ⟨fb, _ | ⟨i0, _ | ⟨i1, _ | ⟨i2, _ | ⟨i3, _ | ⟨t0, t⟩⟩⟩⟩⟩⟩⟩⟩⟩⟩⟩ <;>
    simp only [decodeOne, reduceCtorEq] at hdec
  split at hdec
  · exact absurd hdec (by simp)
  · rcases hF : Flag.tryFrom fb with _ | fl <;> rw [hF] at hdec
    · exact absurd hdec (by simp)
    · cases hdec
      simp only [List.length_drop, List.length_cons]
      omega

/-- One frame as assembled by `Transport::send`. -/
structure Frame where
  kind : Nat
  flag : Flag
  id : Nat
  body : List Nat
deriving DecidableEq, Repr

/-- `Transport::listen_hook`: an `Ok` handler result is serialized with
`Json::to_string` (whose own failure aborts the hook before anything is
sent) and sent as a `Reply` frame; an `Err` result is sent as an `Error`
frame whose body is the UTF-8 bytes of the error's message
(`e.to_string()`).  The returned list is the frames written to the peer. -/
def listen_hook (D : Type) (serial : D → Option String) (kind id : Nat)
    (result : Except String D) : List Frame :=
  match result with
  | Except.ok r =>
    match serial r with
    | none => []
    | some str => [⟨kind, Flag.Reply, id, utf8Encode str⟩]
  | Except.error e => [⟨kind, Flag.Error, id, utf8Encode e⟩]

/-- One turn of the per-handler task spawned by `Transport::bind` for a
received `(id, buf)` pair: `Json::from_slice` the body — a deserialization
error makes the loop `continue`, sending nothing — otherwise run the
handler and pass its result to `listen_hook`.  The returned list is the
frames written to the peer for this request. -/
def handlerStep (U D : Type) (deser : List Nat → Option U) (handler : U → Except String D)
    (serial : D → Option String) (kind id : Nat) (buf : List Nat) : List Frame :=
  match deser buf with
  | none => []
  | some q => listen_hook D serial kind id (handler q)

/-- The final lines of `Transport::call`: `reader.await??` hands the slot's
`CallResult` to the caller — an error propagates as the call's failure with
the same message — and an `Ok` body is deserialized into the reply type
(`Json::from_slice(&buf)?`, modelled by `deserReply`). -/
def callAwait (V : Type) (deserReply : List Nat → Except String V) :
    CallResult → Except String V
  | CallResult.err e => Except.error e
  | CallResult.ok buf => deserReply buf

/-- The id update in `Transport::call`:
`uid.inner = if uid.inner >= u32::MAX { 0 } else { uid.inner + 1 }`.
The updated value is both stored and used as the id of the new request. -/
def uidNext (inner : Nat) : Nat :=
  if inner ≥ 4294967295 then 0 else inner + 1

/-- The initial id counter (`#[derive(Default)] struct Uid`): 0. -/
def uidInit : Nat := 0

/-- Modelled from the spec: an ID generator whose `next()` "returns current
value then increments; wraps to 0 upon reaching the maximum representable
value".  Returns the emitted id together with the new counter, for
comparison with `uidNext` (the generator embedded from the source). -/
def specIdNext (inner : Nat) : Nat × Nat :=
  (inner, if inner = 4294967295 then 0 else inner + 1)

/-- The registration step of `Transport::call`:
`self.call_stack.write().await.insert(uid.inner, writer)` — a plain
`HashMap::insert` of the completion slot under the allocated id. -/
def callRegister (s : TState) (id slot : Nat) : TState :=
  { s with callStack := mapInsert s.callStack id slot }

/-- Rust's `str::split(sep)` on a character separator: always yields at
least one (possibly empty) piece; a separator at either end or two in a
row yield empty pieces. -/
def splitChar (sep : Char) : List Char → List (List Char)
  | [] => [[]]
  | c :: rest =>
    if c = sep then [] :: splitChar sep rest
    else
      match splitChar sep rest with
      | [] => [[c]]
      | g :: gs => (c :: g) :: gs

/-- Rust's `str::parse` for an unsigned integer type with maximum value
`max`: an optional leading `+`, then at least one ASCII digit, no other
characters, and no overflow past `max`. -/
def rustParseNat (max : Nat) (s : String) : Option Nat :=
  let cs := match s.data with
    | '+' :: rest => rest
    | cs => cs
  if cs.isEmpty then none
  else if cs.all Char.isDigit then
    let n := cs.foldl (fun a c => a * 10 + (c.toNat - 48)) 0
    if n ≤ max then some n else none
  else none

/-- The fields of `struct Attributes` in `sdp/src/attributes/mod.rs`.  The
maps are `HashMap`s keyed by a `u8`; `Orient`, `Kind` and `RtpValue` live
in files outside the provided sources, so their parsed values are carried
as the accepted input text. -/
structure Attributes where
  ptime : Option Nat := none
  maxptime : Option Nat := none
  rtpmap : Nat → Option String := fun _ => none
  fmtp : Nat → Option (List (String × String)) := fun _ => none
  orient : Option String := none
  charset : Option String := none
  sdplang : Option String := none
  lang : Option String := none
  framerate : Option Nat := none
  quality : Option Nat := none
  kind : Option String := none
  extmap : Nat → Option String := fun _ => none

/-- `Attributes::handle_ptime`: `self.ptime = Some(value.parse::<u64>()?)`. -/
def handle_ptime (a : Attributes) (value : String) : Except String Attributes :=
  match rustParseNat 18446744073709551615 value with
  | none => Except.error "invalid digit found in string"
  | some n => Except.ok { a with ptime := some n }

/-- `Attributes::handle_maxptime`: `self.maxptime = Some(value.parse::<u64>()?)`. -/
def handle_maxptime (a : Attributes) (value : String) : Except String Attributes :=
  match rustParseNat 18446744073709551615 value with
  | none => Except.error "invalid digit found in string"
  | some n => Except.ok { a with maxptime := some n }

/-- `Attributes::handle_charset`: stores the value. -/
def handle_charset (a : Attributes) (value : String) : Except String Attributes :=
  Except.ok { a with charset := some value }

/-- `Attributes::handle_sdplang`: stores the value. -/
def handle_sdplang (a : Attributes) (value : String) : Except String Attributes :=
  Except.ok { a with sdplang := some value }

/-- `Attributes::handle_lang`: stores the value. -/
def handle_lang (a : Attributes) (value : String) : Except String Attributes :=
  Except.ok { a with lang := some value }

/-- `Attributes::handle_framerate`: `value.parse::<u16>()?`. -/
def handle_framerate (a : Attributes) (value : String) : Except String Attributes :=
  match rustParseNat 65535 value with
  | none => Except.error "invalid digit found in string"
  | some n => Except.ok { a with framerate := some n }

/-- `Attributes::handle_quality`: `value.parse::<u8>()?`. -/
def handle_quality (a : Attributes) (value : String) : Except String Attributes :=
  match rustParseNat 255 value with
  | none => Except.error "invalid digit found in string"
  | some n => Except.ok { a with quality := some n }

/-- `Attributes::handle_orient`: `Orient::try_from(value)?` — the `Orient`
parser lives outside the provided sources and is taken as the parameter
`orientTF`. -/
def handle_orient (orientTF : String → Option String) (a : Attributes)
    (value : String) : Except String Attributes :=
  match orientTF value with
  | none => Except.error "invalid orient"
  | some o => Except.ok { a with orient := some o }

/-- `Attributes::handle_kind`: `Kind::try_from(value)?` — the `Kind` parser
lives outside the provided sources and is taken as the parameter `kindTF`. -/
def handle_kind (kindTF : String → Option String) (a : Attributes)
    (value : String) : Except String Attributes :=
  match kindTF value with
  | none => Except.error "invalid type"
  | some k => Except.ok { a with kind := some k }

/-- `Attributes::handle_rtpmap`: split on a space, require exactly two
pieces, parse the second as an `RtpValue` (outside the provided sources,
parameter `rtpTF`), parse the first as the `u8` key, insert. -/
def handle_rtpmap (rtpTF : String → Option String) (a : Attributes)
    (value : String) : Except String Attributes :=
  let values := (splitChar ' ' value.data).map (fun cs => String.mk cs)
  if values.length = 2 then
    match rtpTF (values.getD 1 "") with
    | none => Except.error "invalid rtpmap value"
    | some rtp =>
      match rustParseNat 255 (values.getD 0 "") with
      | none => Except.error "invalid digit found in string"
      | some key =>
        Except.ok { a with rtpmap := fun k => if k = key then some rtp else a.rtpmap k }
  else Except.error "invalid rtpmap!"

/-- `Attributes::handle_fmtp`: split on a space, require exactly two
pieces, parse the first as the `u8` key, split the second on `;`, keep the
pieces that split on `=` into exactly a pair, and insert each pair into
the entry's map (created empty on first use). -/
def handle_fmtp (a : Attributes) (value : String) : Except String Attributes :=
  let values := (splitChar ' ' value.data).map (fun cs => String.mk cs)
  if values.length = 2 then
    match rustParseNat 255 (values.getD 0 "") with
    | none => Except.error "invalid digit found in string"
    | some key =>
      let pairs := (splitChar ';' (values.getD 1 "").data).filterMap (fun piece =>
        match splitChar '=' piece with
        | [k, v] => some (String.mk k, String.mk v)
        | _ => none)
      let base := match a.fmtp key with
        | none => []
        | some m => m
      let updated := pairs.foldl (fun m p => m.filter (fun q => q.1 ≠ p.1) ++ [p]) base
      let newFmtp := fun k => if k = key then some updated else a.fmtp k
      Except.ok { a with fmtp := newFmtp }
  else Except.error "invalid fmtp!"

/-- `Attributes::handle_extmap`: split on a space, require exactly two
pieces, parse the first as the `u8` key, insert the second. -/
def handle_extmap (a : Attributes) (value : String) : Except String Attributes :=
  let values := (splitChar ' ' value.data).map (fun cs => String.mk cs)
  if values.length = 2 then
    match rustParseNat 255 (values.getD 0 "") with
    | none => Except.error "invalid digit found in string"
    | some key =>
      let newExtmap := fun k => if k = key then some (values.getD 1 "") else a.extmap k
      Except.ok { a with extmap := newExtmap }
  else Except.error "invalid extmap!"

/-- The `values[1]` indexing done inside every recognized branch of
`Attributes::handle`: with fewer than two pieces the index is out of
bounds, which in Rust aborts with a panic — modelled by `none` in the
outer `Option`. -/
def withArg (rest : List String) (f : String → Except String Attributes) :
    Option (Except String Attributes) :=
  match rest with
  | [] => none
  | v :: _ => some (f v)

/-- `Attributes::handle`: split the line on `:`, `ensure!` the piece list
is non-empty (`split` never yields an empty list, so this guard is dead),
then dispatch on the first piece, handing `values[1]` to the matching
sub-handler; an unrecognized first piece is `Ok(())`.  The outer `Option`
is `none` exactly when the Rust code panics on the `values[1]` index. -/
def attrsHandle (orientTF kindTF rtpTF : String → Option String)
    (a : Attributes) (line : String) : Option (Except String Attributes) :=
  match (splitChar ':' line.data).map (fun cs => String.mk cs) with
  | [] => some (Except.error "invalid attributes!")
  | v0 :: rest =>
    if v0 = "ptime" then withArg rest (handle_ptime a)
    else if v0 = "maxptime" then withArg rest (handle_maxptime a)
    else if v0 = "rtpmap" then withArg rest (handle_rtpmap rtpTF a)
    else if v0 = "orient" then withArg rest (handle_orient orientTF a)
    else if v0 = "type" then withArg rest (handle_kind kindTF a)
    else if v0 = "charset" then withArg rest (handle_charset a)
    else if v0 = "sdplang" then withArg rest (handle_sdplang a)
    else if v0 = "lang" then withArg rest (handle_lang a)
    else if v0 = "framerate" then withArg rest (handle_framerate a)
    else if v0 = "quality" then withArg rest (handle_quality a)
    else if v0 = "fmtp" then withArg rest (handle_fmtp a)
    else if v0 = "extmap" then withArg rest (handle_extmap a)
    else some (Except.ok a)

/-! ## Helper lemmas -/

theorem u32be_u32beBytes (n : Nat) (h : n < 4294967296) :
    u32be (n / 16777216 % 256) (n / 65536 % 256) (n / 256 % 256) (n % 256) = n := by
  simp only [u32be]
  omega

theorem tryFrom_toByte (f : Flag) : Flag.tryFrom (Flag.toByte f) = some f := by
  cases f <;> rfl

theorem encodeFrame_length (kind : Nat) (flag : Flag) (id : Nat) (body : List Nat) :
    (encodeFrame kind flag id body).length = 10 + body.length := by
  simp [encodeFrame, u32beBytes]
  omega

theorem decodeOne_encode_append (kind id : Nat) (flag : Flag) (body rest : List Nat)
    (hk : kind < 256) (hid : id < 4294967296) (hlen : body.length < 4294967296)
    (hne : body ≠ [] ∨ rest ≠ []) :
    decodeOne (encodeFrame kind flag id body ++ rest) =
      DecodeResult.ok kind flag id body rest := by
  have hmodl : body.length % 4294967296 = body.length := Nat.mod_eq_of_lt hlen
  have hmodi : id % 4294967296 = id := Nat.mod_eq_of_lt hid
  have hmodk : kind % 256 = kind := Nat.mod_eq_of_lt hk
  have hlenbe := u32be_u32beBytes body.length hlen
  have hidbe := u32be_u32beBytes id hid
  rcases body with _ | ⟨bb, bt⟩
  · rcases rest with _ | ⟨r0, rt⟩
    · simp at hne
    · have h0 : u32be 0 0 0 0 = 0 := by decide
      simp only [encodeFrame, u32beBytes, hmodl, hmodi, hmodk, List.length_nil,
        Nat.zero_div, Nat.zero_mod, List.cons_append, List.nil_append,
        List.append_nil, decodeOne]
      rw [if_neg (by simp [h0]), tryFrom_toByte]
      simp [h0, hidbe]
  · have htake : (bb :: (bt ++ rest)).take (bt.length + 1) = bb :: bt := by
      simpa using List.take_left (bb :: bt) rest
    have hdrop : (bb :: (bt ++ rest)).drop (bt.length + 1) = rest := by
      simpa using List.drop_left (bb :: bt) rest
    have hgt : ¬ (bt.length + 1 > (bt ++ rest).length + 1) := by
      simp [List.length_append]
    rw [show (bb :: bt).length = bt.length + 1 from rfl] at hlenbe hmodl
    simp only [encodeFrame, u32beBytes, List.length_cons, hmodl, hmodi, hmodk,
      List.cons_append, List.nil_append, decodeOne]
    rw [hlenbe, if_neg hgt, tryFrom_toByte, htake, hdrop, hidbe]

theorem pollLoop_insufficient (s : TState) (buf : List Nat)
    (h : decodeOne buf = DecodeResult.insufficient) :
    pollLoop s buf = (s, buf, []) := by
  conv_lhs => rw [pollLoop.eq_def]
  split <;> rename_i heq <;> rw [h] at heq <;> cases heq
  try rfl

theorem pollLoop_ok (s : TState) (buf : List Nat) (k : Nat) (f : Flag) (i : Nat)
    (b r : List Nat) (h : decodeOne buf = DecodeResult.ok k f i b r) :
    pollLoop s buf =
      ((pollLoop (routeFrame s k f i b).1 r).1,
       (pollLoop (routeFrame s k f i b).1 r).2.1,
       (routeFrame s k f i b).2 ++ (pollLoop (routeFrame s k f i b).1 r).2.2) := by
  conv_lhs => rw [pollLoop.eq_def]
  split <;> rename_i heq <;> rw [h] at heq <;> cases heq
  rfl

theorem routeFrame_miss (s : TState) (kind : Nat) (flag : Flag) (id : Nat) (body : List Nat)
    (hreq : flag = Flag.Request → s.listener kind = none)
    (hrep : flag ≠ Flag.Request → s.callStack id = none) :
    routeFrame s kind flag id body = (s, []) := by
  cases flag
  · simp [routeFrame, process_request, hreq rfl]
  · simp [routeFrame, process_reply, hrep (by decide)]
  · simp only [routeFrame, process_error]
    cases h : utf8Decode body
    · rfl
    · simp [hrep (by decide)]

theorem process_error_invalid (s : TState) (id : Nat) (body : List Nat)
    (h : utf8Decode body = none) : process_error s id body = (s, []) := by
  simp [process_error, h]

theorem pollLoop_skip_frame (s : TState) (kind : Nat) (flag : Flag) (id : Nat)
    (body rest : List Nat)
    (hk : kind < 256) (hid : id < 4294967296) (hlen : body.length < 4294967296)
    (hne : body ≠ [] ∨ rest ≠ [])
    (hroute : routeFrame s kind flag id body = (s, [])) :
    pollLoop s (encodeFrame kind flag id body ++ rest) = pollLoop s rest := by
  rw [pollLoop_ok s _ kind flag id body rest
    (decodeOne_encode_append kind id flag body rest hk hid hlen hne), hroute]
  simp

/-! ## Claim theorems -/

/-- C1, counterexample: the claim fails for the valid frame tuple
`(3, Request, 9, [])` — its encoding is exactly 10 bytes, and the decoder
in `Transport::poll` reports insufficient data on a 10-byte buffer
(`len <= 10` breaks the loop) instead of yielding the tuple back. -/
theorem c1_counterexample :
    decodeOne (encodeFrame 3 Flag.Request 9 []) = DecodeResult.insufficient ∧
    (encodeFrame 3 Flag.Request 9 []).length = 10 := by decide

/-- C1 (amended): for every valid frame tuple with a NON-EMPTY body,
encoding (4-byte big-endian body length, kind byte, flag byte, 4-byte
big-endian id, body) and then decoding the produced bytes yields the
identical tuple and consumes exactly `10 + len(body)` bytes (nothing is
left over); an empty-body frame alone in the buffer is reported as
insufficient data instead. -/
theorem c1_roundtrip_amended (kind id : Nat) (flag : Flag) (body : List Nat)
    (hk : kind < 256) (hid : id < 4294967296) (hlen : body.length < 4294967296)
    (hne : body ≠ []) :
    decodeOne (encodeFrame kind flag id body) = DecodeResult.ok kind flag id body [] ∧
    (encodeFrame kind flag id body).length = 10 + body.length := by
  refine ⟨?_, encodeFrame_length kind flag id body⟩
  have h := decodeOne_encode_append kind id flag body [] hk hid hlen (Or.inl hne)
  simpa using h

/-- C1, witness of the amended round trip at the tuple `(3, Reply, 9, [1, 2])`. -/
theorem c1_witness :
    decodeOne (encodeFrame 3 Flag.Reply 9 [1, 2]) = DecodeResult.ok 3 Flag.Reply 9 [1, 2] [] ∧
    (encodeFrame 3 Flag.Reply 9 [1, 2]).length = 10 + 2 :=
  c1_roundtrip_amended 3 9 Flag.Reply [1, 2] (by decide) (by decide) (by decide) (by decide)

/-- C2, counterexample: a buffer of exactly 10 bytes holding a full header
that declares body length 0 (which fits: 0 + 10 ≤ 10) with a valid flag
byte is NOT decoded — `Transport::poll` breaks out on `len <= 10` and
reports insufficient data, contradicting the claim. -/
theorem c2_counterexample :
    ([0, 0, 0, 0, 1, 0, 0, 0, 0, 7] : List Nat).length = 10 ∧
    declaredLen [0, 0, 0, 0, 1, 0, 0, 0, 0, 7] + 10 ≤ 10 ∧
    Flag.tryFrom (([0, 0, 0, 0, 1, 0, 0, 0, 0, 7] : List Nat).getD 5 0) = some Flag.Request ∧
    decodeOne [0, 0, 0, 0, 1, 0, 0, 0, 0, 7] = DecodeResult.insufficient := by decide

/-- C2 (amended): whenever the Inbound Buffer holds STRICTLY MORE than 10
bytes, the header-declared body length fits within the remaining buffer,
and the flag byte is valid, the loop in `Transport::poll` decodes one
frame and consumes its `10 + body length` bytes from the front; with at
most 10 bytes, or with the declared body not fully arrived, it reports
insufficient data and leaves the buffer untouched for the next read. -/
theorem c2_decode_step_amended (buf : List Nat) (f : Flag) :
    (10 < buf.length → declaredLen buf + 10 ≤ buf.length →
       Flag.tryFrom (buf.getD 5 0) = some f →
       decodeOne buf = DecodeResult.ok (buf.getD 4 0) f
         (u32be (buf.getD 6 0) (buf.getD 7 0) (buf.getD 8 0) (buf.getD 9 0))
         ((buf.drop 10).take (declaredLen buf)) ((buf.drop 10).drop (declaredLen buf))) ∧
    ((buf.length ≤ 10 ∨ buf.length < declaredLen buf + 10) →
       decodeOne buf = DecodeResult.insufficient ∧
       ∀ s : TState, pollLoop s buf = (s, buf, [])) := by
  rcases buf with _ | ⟨b0, _ | ⟨b1, _ | ⟨b2, _ | ⟨b3, _ | ⟨k0, _ | ⟨fb, _ | ⟨i0, _ | ⟨i1, _ | ⟨i2, _ | ⟨i3, _ | ⟨t0, t⟩⟩⟩⟩⟩⟩⟩⟩⟩⟩⟩
  case cons.cons.cons.cons.cons.cons.cons.cons.cons.cons.cons =>
    have hd : declaredLen (b0 :: b1 :: b2 :: b3 :: k0 :: fb :: i0 :: i1 :: i2 :: i3 :: t0 :: t) =
        u32be b0 b1 b2 b3 := rfl
    constructor
    · intro h10 hfit hflag
      rw [hd] at hfit
      have hsz : ¬ (u32be b0 b1 b2 b3 > t.length + 1) := by
        simp only [List.length_cons] at hfit
        omega
      simp only [decodeOne]
      rw [if_neg hsz, show Flag.tryFrom fb = some f from hflag]
      rfl
    · intro h
      have hins : decodeOne (b0 :: b1 :: b2 :: b3 :: k0 :: fb :: i0 :: i1 :: i2 :: i3 :: t0 :: t) =
          DecodeResult.insufficient := by
        rcases h with h | h
        · exact absurd h (by simp)
        · rw [hd] at h
          simp only [List.length_cons] at h
          simp only [decodeOne]
          rw [if_pos (by omega)]
      exact ⟨hins, fun s => pollLoop_insufficient s _ hins⟩
  all_goals
    exact ⟨fun h10 => absurd h10 (by simp),
      fun _ => ⟨rfl, fun s => pollLoop_insufficient s _ rfl⟩⟩

/-- C2, witness: a complete frame preceded by its header in an 11-byte
buffer decodes, and a buffer whose declared body has not arrived is
reported insufficient. -/
theorem c2_witness :
    decodeOne [0, 0, 0, 1, 2, 0, 0, 0, 0, 5, 9] = DecodeResult.ok 2 Flag.Request 5 [9] [] ∧
    decodeOne [0, 0, 0, 9, 2, 0, 0, 0, 0, 5, 9] = DecodeResult.insufficient :=
  ⟨(c2_decode_step_amended [0, 0, 0, 1, 2, 0, 0, 0, 0, 5, 9] Flag.Request).1
      (by decide) (by decide) (by decide),
   ((c2_decode_step_amended [0, 0, 0, 9, 2, 0, 0, 0, 0, 5, 9] Flag.Request).2
      (Or.inr (by decide))).1⟩

/-- C3, counterexample: from the initial counter 0, `Transport::call`
updates the counter FIRST and uses the updated value, so the first id it
emits is 1 — while the claimed return-current-then-increment generator
(`specIdNext`) would emit 0. -/
theorem c3_counterexample :
    uidNext uidInit = 1 ∧ (specIdNext uidInit).1 = 0 ∧
    uidNext uidInit ≠ (specIdNext uidInit).1 := by decide

/-- C3 (amended): the id update in `Transport::call` INCREMENTS the
counter and returns the incremented value, wrapping to 0 when the counter
has reached the maximum representable u32 value (never skipping to 1); in
particular the id emitted immediately after the maximum value is 0. -/
theorem c3_uid_amended :
    (∀ inner : Nat, inner < 4294967295 → uidNext inner = inner + 1) ∧
    uidNext 4294967294 = 4294967295 ∧ uidNext 4294967295 = 0 := by
  refine ⟨fun inner h => ?_, by decide, by decide⟩
  simp only [uidNext]
  rw [if_neg (by omega)]

/-- C3, witness: the amended generator at counter 7 emits 8, and after
emitting the maximum value the next id is 0. -/
theorem c3_witness : uidNext 7 = 8 ∧ uidNext 4294967295 = 0 :=
  ⟨c3_uid_amended.1 7 (by decide), c3_uid_amended.2.2⟩

/-- C4, counterexample: with a handler bound to kind 5 whose expected
input type no body deserializes into (`deser` always fails), the request
`(id 7, body [1, 2, 3])` produces NO outgoing frame at all — in
particular no Error-flagged frame with id 7 — because the `bind` loop
hits `Err(_) => continue`.  The claim that an error reply is sent is
false. -/
theorem c4_counterexample :
    (fun _ : List Nat => (none : Option Nat)) [1, 2, 3] = none ∧
    handlerStep Nat Nat (fun _ => none) (fun _ => Except.ok 0) (fun _ => some "0") 5 7 [1, 2, 3] =
      [] := by
  exact ⟨rfl, rfl⟩

/-- C4 (amended): a Request whose body fails to deserialize into the
bound handler's expected input type is dropped silently: the handler loop
`continue`s, sending no frame whatsoever (neither Reply nor Error) for
that request, and the transport keeps running. -/
theorem c4_deser_failure_amended (U D : Type) (deser : List Nat → Option U)
    (handler : U → Except String D) (serial : D → Option String)
    (kind id : Nat) (buf : List Nat) (h : deser buf = none) :
    handlerStep U D deser handler serial kind id buf = [] := by
  simp [handlerStep, h]

/-- C4, witness of the amended claim at a concrete failing deserializer. -/
theorem c4_witness :
    handlerStep Nat Nat (fun _ => none) (fun _ => Except.ok 0) (fun _ => some "1") 6 8 [9] = [] :=
  c4_deser_failure_amended Nat Nat (fun _ => none) (fun _ => Except.ok 0)
    (fun _ => some "1") 6 8 [9] rfl

/-- C5: a received frame that misses its routing target — a Request whose
kind has no registered handler, or a Reply/Error whose id has no pending
correlation entry — is silently dropped as a non-error: the tables are
unchanged, no effect is produced, and the dispatch loop processes the
remaining buffered frames exactly as if the dropped frame had never
arrived. -/
theorem c5_routing_miss (s : TState) (kind : Nat) (flag : Flag) (id : Nat)
    (body rest : List Nat)
    (hk : kind < 256) (hid : id < 4294967296) (hlen : body.length < 4294967296)
    (hne : body ≠ [] ∨ rest ≠ [])
    (hreq : flag = Flag.Request → s.listener kind = none)
    (hrep : flag ≠ Flag.Request → s.callStack id = none) :
    routeFrame s kind flag id body = (s, []) ∧
    pollLoop s (encodeFrame kind flag id body ++ rest) = pollLoop s rest := by
  have hmiss := routeFrame_miss s kind flag id body hreq hrep
  exact ⟨hmiss, pollLoop_skip_frame s kind flag id body rest hk hid hlen hne hmiss⟩

/-- C5, witness: on a fresh transport a Request for unbound kind 1 is
dropped and a following Reply frame is processed as if the Request had
never arrived. -/
theorem c5_witness :
    routeFrame initState 1 Flag.Request 2 [3] = (initState, []) ∧
    pollLoop initState (encodeFrame 1 Flag.Request 2 [3] ++ encodeFrame 4 Flag.Reply 6 [7]) =
      pollLoop initState (encodeFrame 4 Flag.Reply 6 [7]) :=
  c5_routing_miss initState 1 Flag.Request 2 [3] (encodeFrame 4 Flag.Reply 6 [7])
    (by decide) (by decide) (by decide) (Or.inl (by decide)) (fun _ => rfl)
    (fun h => absurd rfl h)

/-- C6, counterexample: registering a slot under id 5 while id 5 is
already present does not fail — `HashMap::insert` silently replaces the
existing slot (100) with the new one (200), contradicting the claim that
registration fails on a present key rather than overwriting. -/
theorem c6_counterexample :
    (callRegister initState 5 100).callStack 5 = some 100 ∧
    (callRegister (callRegister initState 5 100) 5 200).callStack 5 = some 200 :=
  ⟨rfl, rfl⟩

/-- C6 (amended): the registration step of `Transport::call` inserts the
completion slot keyed by the allocated id, REPLACING any slot already
present under that id (it never fails); bindings of other ids and the
listener table are untouched. -/
theorem c6_insert_overwrites_amended (s : TState) (id slot k : Nat) :
    (callRegister s id slot).callStack id = some slot ∧
    (k ≠ id → (callRegister s id slot).callStack k = s.callStack k) ∧
    (callRegister s id slot).listener = s.listener := by
  refine ⟨?_, fun h => ?_, rfl⟩
  · simp [callRegister, mapInsert]
  · simp [callRegister, mapInsert, h]

/-- C6, witness of the amended claim at id 6, slot 101, other key 8. -/
theorem c6_witness :
    (callRegister initState 6 101).callStack 6 = some 101 ∧
    (callRegister initState 6 101).callStack 8 = initState.callStack 8 :=
  ⟨(c6_insert_overwrites_amended initState 6 101 8).1,
   (c6_insert_overwrites_amended initState 6 101 8).2.1 (by decide)⟩

/-- C7: if the handler bound to a kind always fails with message "boom"
then (i) no Reply-flagged frame is ever sent for the request, (ii) when
the request body deserializes, exactly one Error-flagged frame with the
same id and body "boom" is sent, (iii) on its arrival `process_error`
removes the pending entry and resolves the caller's slot with the error
message "boom", and (iv) `Transport::call` surfaces that resolution as a
failure whose message is exactly "boom". -/
theorem c7_boom_propagation (U D V : Type) (deser : List Nat → Option U)
    (serial : D → Option String) (deserReply : List Nat → Except String V)
    (s : TState) (kind id slot : Nat) (buf : List Nat)
    (hs : s.callStack id = some slot) :
    (∀ fr ∈ handlerStep U D deser (fun _ => Except.error "boom") serial kind id buf,
       fr.flag ≠ Flag.Reply) ∧
    (∀ q, deser buf = some q →
       handlerStep U D deser (fun _ => Except.error "boom") serial kind id buf =
         [⟨kind, Flag.Error, id, utf8Encode "boom"⟩]) ∧
    process_error s id (utf8Encode "boom") =
      ({ s with callStack := mapRemove s.callStack id },
       [Effect.resolve slot (CallResult.err "boom")]) ∧
    callAwait V deserReply (CallResult.err "boom") = Except.error "boom" := by
  have hu : utf8Decode (utf8Encode "boom") = some "boom" := by decide
  refine ⟨?_, fun q hq => ?_, ?_, rfl⟩
  · intro fr hfr
    cases hq : deser buf with
    | none => rw [handlerStep, hq] at hfr; cases hfr
    | some q =>
      rw [handlerStep, hq] at hfr
      simp only [listen_hook, List.mem_singleton] at hfr
      subst hfr
      simp
  · simp [handlerStep, hq, listen_hook]
  · simp [process_error, hu, hs]

/-- C7, witness at kind 5, id 9, pending slot 42, body [49]. -/
theorem c7_witness :
    handlerStep Nat Nat (fun _ => some 0) (fun _ => Except.error "boom")
        (fun _ => some "") 5 9 [49] = [⟨5, Flag.Error, 9, utf8Encode "boom"⟩] ∧
    process_error (callRegister initState 9 42) 9 (utf8Encode "boom") =
      ({ callRegister initState 9 42 with
          callStack := mapRemove (callRegister initState 9 42).callStack 9 },
       [Effect.resolve 42 (CallResult.err "boom")]) ∧
    callAwait Nat (fun _ => Except.ok 0) (CallResult.err "boom") = Except.error "boom" := by
  have h := c7_boom_propagation Nat Nat Nat (fun _ => some 0) (fun _ => some "")
    (fun _ => Except.ok 0) (callRegister initState 9 42) 5 9 42 [49] rfl
  exact ⟨h.2.1 0 rfl, h.2.2.1, h.2.2.2⟩

/-- C8: an Error-flagged frame whose body is not valid UTF-8 is dropped
by itself — `process_error` short-circuits on the UTF-8 check with no
state change and no effect — and the dispatch loop is not terminated: it
continues decoding and routing the subsequent buffered frames exactly as
if the malformed frame had never arrived. -/
theorem c8_invalid_utf8_error_frame (s : TState) (kind id : Nat) (body rest : List Nat)
    (hk : kind < 256) (hid : id < 4294967296) (hlen : body.length < 4294967296)
    (hbad : utf8Decode body = none) :
    process_error s id body = (s, []) ∧
    pollLoop s (encodeFrame kind Flag.Error id body ++ rest) = pollLoop s rest := by
  have hne : body ≠ [] := by
    intro h
    rw [h] at hbad
    exact absurd hbad (by decide)
  have hperr := process_error_invalid s id body hbad
  have hroute : routeFrame s kind Flag.Error id body = (s, []) := by
    simp [routeFrame, hperr]
  exact ⟨hperr,
    pollLoop_skip_frame s kind Flag.Error id body rest hk hid hlen (Or.inl hne) hroute⟩

/-- C8, witness: an Error frame with body [255] (invalid UTF-8) followed
by a Request frame is processed exactly like the Request frame alone. -/
theorem c8_witness :
    pollLoop initState (encodeFrame 0 Flag.Error 1 [255] ++ encodeFrame 1 Flag.Request 2 [3]) =
      pollLoop initState (encodeFrame 1 Flag.Request 2 [3]) :=
  (c8_invalid_utf8_error_frame initState 0 1 [255] (encodeFrame 1 Flag.Request 2 [3])
    (by decide) (by decide) (by decide) (by decide)).2

/-- C9: when `process_error` receives an Error frame whose body is
malformed UTF-8, the correlation table is left completely unchanged — the
pending entry for that id is NOT removed (the `?` on the UTF-8 check runs
before `call_stack.remove`) — so a later well-formed Reply, or a later
Error with a valid message, carrying the same id still resolves the
waiting call. -/
theorem c9_invalid_utf8_leaves_table (s : TState) (id slot : Nat)
    (bad body2 : List Nat) (msg : String)
    (hbad : utf8Decode bad = none) :
    process_error s id bad = (s, []) ∧
    (s.callStack id = some slot →
       process_reply (process_error s id bad).1 id body2 =
         ({ s with callStack := mapRemove s.callStack id },
          [Effect.resolve slot (CallResult.ok body2)])) ∧
    (s.callStack id = some slot → utf8Decode body2 = some msg →
       process_error (process_error s id bad).1 id body2 =
         ({ s with callStack := mapRemove s.callStack id },
          [Effect.resolve slot (CallResult.err msg)])) := by
  have hperr := process_error_invalid s id bad hbad
  refine ⟨hperr, fun hs => ?_, fun hs hm => ?_⟩
  · rw [hperr]
    simp [process_reply, hs]
  · rw [hperr]
    simp [process_error, hm, hs]

/-- C9, witness: after a malformed Error frame (body [200]) for pending
id 7, the entry survives and a later Reply with body [48] resolves it. -/
theorem c9_witness :
    process_error (callRegister initState 7 42) 7 [200] = (callRegister initState 7 42, []) ∧
    process_reply (process_error (callRegister initState 7 42) 7 [200]).1 7 [48] =
      ({ callRegister initState 7 42 with
          callStack := mapRemove (callRegister initState 7 42).callStack 7 },
       [Effect.resolve 42 (CallResult.ok [48])]) := by
  have h := c9_invalid_utf8_leaves_table (callRegister initState 7 42) 7 42 [200] [48] "0"
    (by decide)
  exact ⟨h.1, h.2.1 rfl⟩

/-- C10: the claim that `Attributes::handle` returns a `Result` without
panicking for every input line is violated by the bare line "ptime": the
line splits into the single piece ["ptime"], the dead `ensure!` guard
passes, the "ptime" branch is taken, and `values[1]` is an out-of-bounds
index — the Rust code panics, modelled here by the `none` result of the
embedding, for every choice of the out-of-tree value parsers and every
prior attribute state. -/
theorem c10_bare_ptime_line_out_of_bounds (orientTF kindTF rtpTF : String → Option String)
    (a : Attributes) : attrsHandle orientTF kindTF rtpTF a "ptime" = none := rfl

end Quasipaa
